import Mathlib

/-!
Shallow embedding of `src/client/mcp_sse_client.py` (MCPClientWrapper):
the tool-calling orchestration loop, the tool-catalog normalizer, the
result renderer and the turn entry point `process_message`.

External collaborators (the Azure OpenAI completion engine and the MCP
session gateway) are modelled as oracle functions passed to the embedded
code; every call the code makes to them is logged so that properties about
the number, order and arguments of those calls can be stated.
-/

set_option maxRecDepth 10000

/-- JSON values as Python's `json` module produces them.  Numbers keep their
source lexeme (the client never inspects a numeric value, only compares
`type` fields against string constants), and objects keep their fields in
insertion order, mirroring Python dicts; lookups take the last binding,
matching dict construction where a later duplicate key overwrites an
earlier one. -/
inductive Json where
  | null : Json
  | bool (b : Bool) : Json
  | num (lexeme : String) : Json
  | str (s : String) : Json
  | arr (items : List Json) : Json
  | obj (fields : List (String × Json)) : Json

/-- Python dict lookup over the field list: the last binding for a key wins. -/
def lookupLast (fields : List (String × Json)) (key : String) : Option Json :=
  fields.foldl (fun acc p => if p.1 = key then some p.2 else acc) none

/-- Python dict membership test (`key in d`). -/
def hasKey (fields : List (String × Json)) (key : String) : Bool :=
  fields.any (fun p => p.1 = key)

/-- Python truthiness of a JSON-shaped value (`if tool.inputSchema`):
None, False, numeric zero, empty string, empty list and empty dict are
falsy. -/
def Json.truthy : Json → Bool
  | .null => false
  | .bool b => b
  | .num lexeme => lexeme.toList.any (fun c => c.isDigit && c ≠ '0')
  | .str s => s ≠ ""
  | .arr items => !items.isEmpty
  | .obj fields => !fields.isEmpty

/-! JSON parsing, embedding Python `json.loads` on the grammar the client
can meet: standard JSON plus the CPython extensions `NaN`, `Infinity` and
`-Infinity`; strict mode (unescaped control characters in strings are
rejected); arbitrary whitespace between tokens; the whole input must be
consumed. -/

def isJsonWs (c : Char) : Bool :=
  c = ' ' || c = '\t' || c = '\n' || c = '\r'

def skipWs : List Char → List Char
  | [] => []
  | c :: rest => if isJsonWs c then skipWs rest else c :: rest

def hexVal (c : Char) : Option Nat :=
  if '0' ≤ c ∧ c ≤ '9' then some (c.toNat - 48)
  else if 'a' ≤ c ∧ c ≤ 'f' then some (c.toNat - 87)
  else if 'A' ≤ c ∧ c ≤ 'F' then some (c.toNat - 55)
  else none

/-- Parse the body of a JSON string after its opening quote, decoding the
standard escapes; raw control characters are rejected (strict mode). -/
def parseStrChars : List Char → String → Option (String × List Char)
  | [], _ => none
  | c :: rest, acc =>
    if c = '"' then some (acc, rest)
    else if c = '\\' then
      match rest with
      | [] => none
      | e :: rest2 =>
        if e = '"' then parseStrChars rest2 (acc.push '"')
        else if e = '\\' then parseStrChars rest2 (acc.push '\\')
        else if e = '/' then parseStrChars rest2 (acc.push '/')
        else if e = 'b' then parseStrChars rest2 (acc.push (Char.ofNat 8))
        else if e = 'f' then parseStrChars rest2 (acc.push (Char.ofNat 12))
        else if e = 'n' then parseStrChars rest2 (acc.push '\n')
        else if e = 'r' then parseStrChars rest2 (acc.push '\r')
        else if e = 't' then parseStrChars rest2 (acc.push '\t')
        else if e = 'u' then
          match rest2 with
          | h1 :: h2 :: h3 :: h4 :: rest3 =>
            match hexVal h1, hexVal h2, hexVal h3, hexVal h4 with
            | some a, some b, some c2, some d =>
              parseStrChars rest3 (acc.push (Char.ofNat (((a * 16 + b) * 16 + c2) * 16 + d)))
            | _, _, _, _ => none
          | _ => none
        else none
    else if c.toNat < 32 then none
    else parseStrChars rest (acc.push c)

/-- Longest digit prefix of the input, as a string, with the rest. -/
def spanDigits : List Char → String × List Char
  | [] => ("", [])
  | c :: rest =>
    if c.isDigit then
      let p := spanDigits rest
      (String.singleton c ++ p.1, p.2)
    else ("", c :: rest)

/-- JSON integer part: a single 0, or a nonzero digit followed by digits. -/
def parseIntPart : List Char → Option (String × List Char)
  | [] => none
  | c :: rest =>
    if c = '0' then some ("0", rest)
    else if c.isDigit then
      let p := spanDigits rest
      some (String.singleton c ++ p.1, p.2)
    else none

/-- Optional JSON fraction part: nothing, or a dot followed by digits. -/
def parseFracPart : List Char → Option (String × List Char)
  | '.' :: rest =>
    (match rest with
     | c :: _ =>
       if c.isDigit then
         let p := spanDigits rest
         some ("." ++ p.1, p.2)
       else none
     | [] => none)
  | cs => some ("", cs)

/-- Optional JSON exponent part. -/
def parseExpPart : List Char → Option (String × List Char)
  | [] => some ("", [])
  | c :: rest =>
    if c = 'e' || c = 'E' then
      let sr : String × List Char :=
        match rest with
        | s :: r2 => if s = '+' || s = '-' then (String.singleton s, r2) else ("", rest)
        | [] => ("", rest)
      match sr.2 with
      | d :: _ =>
        if d.isDigit then
          let p := spanDigits sr.2
          some (String.singleton c ++ sr.1 ++ p.1, p.2)
        else none
      | [] => none
    else some ("", c :: rest)

/-- JSON number lexeme. -/
def parseNum (cs : List Char) : Option (String × List Char) :=
  let sr : String × List Char :=
    match cs with
    | '-' :: r => ("-", r)
    | _ => ("", cs)
  match parseIntPart sr.2 with
  | none => none
  | some (ip, r1) =>
    match parseFracPart r1 with
    | none => none
    | some (fp, r2) =>
      match parseExpPart r2 with
      | none => none
      | some (ep, r3) => some (sr.1 ++ ip ++ fp ++ ep, r3)

mutual

/-- Parse one JSON value; the fuel bounds recursion depth and element
count and is chosen large enough in `Json.loads` that it never runs out
on any input. -/
def parseVal : Nat → List Char → Option (Json × List Char)
  | 0, _ => none
  | fuel + 1, cs =>
    match skipWs cs with
    | [] => none
    | c :: rest =>
      if c = '"' then
        match parseStrChars rest "" with
        | some (s, r) => some (Json.str s, r)
        | none => none
      else if c = '[' then
        match skipWs rest with
        | ']' :: r2 => some (Json.arr [], r2)
        | cs2 => parseArrItems fuel cs2 []
      else if c = '{' then
        match skipWs rest with
        | '}' :: r2 => some (Json.obj [], r2)
        | cs2 => parseObjItems fuel cs2 []
      else if c = 't' then
        match rest with
        | 'r' :: 'u' :: 'e' :: r2 => some (Json.bool true, r2)
        | _ => none
      else if c = 'f' then
        match rest with
        | 'a' :: 'l' :: 's' :: 'e' :: r2 => some (Json.bool false, r2)
        | _ => none
      else if c = 'n' then
        match rest with
        | 'u' :: 'l' :: 'l' :: r2 => some (Json.null, r2)
        | _ => none
      else if c = 'N' then
        match rest with
        | 'a' :: 'N' :: r2 => some (Json.num "NaN", r2)
        | _ => none
      else if c = 'I' then
        match rest with
        | 'n' :: 'f' :: 'i' :: 'n' :: 'i' :: 't' :: 'y' :: r2 => some (Json.num "Infinity", r2)
        | _ => none
      else if c = '-' then
        match rest with
        | 'I' :: 'n' :: 'f' :: 'i' :: 'n' :: 'i' :: 't' :: 'y' :: r2 =>
          some (Json.num "-Infinity", r2)
        | _ =>
          match parseNum (c :: rest) with
          | some (s, r) => some (Json.num s, r)
          | none => none
      else if c.isDigit then
        match parseNum (c :: rest) with
        | some (s, r) => some (Json.num s, r)
        | none => none
      else none

/-- Parse the items of a non-empty JSON array after its opening bracket. -/
def parseArrItems : Nat → List Char → List Json → Option (Json × List Char)
  | 0, _, _ => none
  | fuel + 1, cs, acc =>
    match parseVal fuel cs with
    | none => none
    | some (v, r1) =>
      match skipWs r1 with
      | ',' :: r2 => parseArrItems fuel r2 (acc ++ [v])
      | ']' :: r2 => some (Json.arr (acc ++ [v]), r2)
      | _ => none

/-- Parse the fields of a non-empty JSON object after its opening brace. -/
def parseObjItems : Nat → List Char → List (String × Json) → Option (Json × List Char)
  | 0, _, _ => none
  | fuel + 1, cs, acc =>
    match skipWs cs with
    | '"' :: r1 =>
      match parseStrChars r1 "" with
      | none => none
      | some (k, r2) =>
        match skipWs r2 with
        | ':' :: r3 =>
          match parseVal fuel r3 with
          | none => none
          | some (v, r4) =>
            match skipWs r4 with
            | ',' :: r5 => parseObjItems fuel r5 (acc ++ [(k, v)])
            | '}' :: r5 => some (Json.obj (acc ++ [(k, v)]), r5)
            | _ => none
        | _ => none
    | _ => none

end

/-- Embedding of Python `json.loads`: parse one value surrounded by
optional whitespace; trailing data is an error (`none`). -/
def Json.loads (s : String) : Option Json :=
  let cs := s.toList
  match parseVal (2 * cs.length + 8) cs with
  | some (j, rest) => if (skipWs rest).isEmpty then some j else none
  | none => none

/-! JSON serialization, embedding Python `json.dumps` with its default
separators and `ensure_ascii=True`, and the `indent=2` variant used for
the parameter display message. -/

def hexDigit (n : Nat) : Char :=
  if n < 10 then Char.ofNat (48 + n) else Char.ofNat (87 + (n - 10))

def escapeJsonChar (c : Char) : String :=
  if c = '"' then "\\\""
  else if c = '\\' then "\\\\"
  else if c = '\n' then "\\n"
  else if c = '\t' then "\\t"
  else if c = '\r' then "\\r"
  else if c.toNat = 8 then "\\b"
  else if c.toNat = 12 then "\\f"
  else if c.toNat < 32 || c.toNat > 126 then
    String.mk ['\\', 'u', hexDigit (c.toNat / 4096 % 16), hexDigit (c.toNat / 256 % 16),
               hexDigit (c.toNat / 16 % 16), hexDigit (c.toNat % 16)]
  else String.singleton c

def escapeJsonString (s : String) : String :=
  "\"" ++ String.join (s.toList.map escapeJsonChar) ++ "\""

mutual

/-- Embedding of `json.dumps(value)` with default separators. -/
def Json.dumps : Json → String
  | .null => "null"
  | .bool true => "true"
  | .bool false => "false"
  | .num lexeme => lexeme
  | .str s => escapeJsonString s
  | .arr items => "[" ++ dumpsItems items ++ "]"
  | .obj fields => "\x7b" ++ dumpsFields fields ++ "\x7d"

def dumpsItems : List Json → String
  | [] => ""
  | [j] => Json.dumps j
  | j :: rest => Json.dumps j ++ ", " ++ dumpsItems rest

def dumpsFields : List (String × Json) → String
  | [] => ""
  | [(k, v)] => escapeJsonString k ++ ": " ++ Json.dumps v
  | (k, v) :: rest => escapeJsonString k ++ ": " ++ Json.dumps v ++ ", " ++ dumpsFields rest

end

/-- 2-space indentation prefix at a nesting level. -/
def indentSpaces (lvl : Nat) : String :=
  String.join (List.replicate (2 * lvl) " ")

mutual

/-- Embedding of `json.dumps(value, indent=2)` at a nesting level. -/
def dumpsInd : Nat → Json → String
  | _, .null => "null"
  | _, .bool true => "true"
  | _, .bool false => "false"
  | _, .num lexeme => lexeme
  | _, .str s => escapeJsonString s
  | _, .arr [] => "[]"
  | lvl, .arr (j :: rest) => "[\n" ++ dumpsIndItems (lvl + 1) (j :: rest) ++ "\n" ++ indentSpaces lvl ++ "]"
  | _, .obj [] => "\x7b\x7d"
  | lvl, .obj (f :: rest) => "\x7b\n" ++ dumpsIndFields (lvl + 1) (f :: rest) ++ "\n" ++ indentSpaces lvl ++ "\x7d"

def dumpsIndItems : Nat → List Json → String
  | _, [] => ""
  | lvl, [j] => indentSpaces lvl ++ dumpsInd lvl j
  | lvl, j :: rest => indentSpaces lvl ++ dumpsInd lvl j ++ ",\n" ++ dumpsIndItems lvl rest

def dumpsIndFields : Nat → List (String × Json) → String
  | _, [] => ""
  | lvl, [(k, v)] => indentSpaces lvl ++ escapeJsonString k ++ ": " ++ dumpsInd lvl v
  | lvl, (k, v) :: rest =>
    indentSpaces lvl ++ escapeJsonString k ++ ": " ++ dumpsInd lvl v ++ ",\n" ++ dumpsIndFields lvl rest

end

/-- Embedding of `json.dumps(value, indent=2)`. -/
def Json.dumpsIndent2 (j : Json) : String := dumpsInd 0 j

/-! Data model: display messages (Gradio chat messages), outbound
completion-engine messages, tool descriptors, and the external-collaborator
interfaces. -/

/-- The `metadata` dict attached to assistant display messages. -/
structure Metadata where
  title : Option String := none
  log : Option String := none
  status : Option String := none
  id : Option String := none
  parent_id : Option String := none

/-- Content of a display message: Python `None`, a text string, or the
image dict `\x7b"path": ..., "alt_text": ...\x7d` built in the image branch of
the renderer. -/
inductive MsgContent where
  | null : MsgContent
  | text (s : String) : MsgContent
  | image (path : Json) (alt_text : Json) : MsgContent

/-- One display message (an entry of `result_messages` / the chat history). -/
structure Msg where
  role : String
  content : MsgContent
  metadata : Option Metadata := none

/-- One outbound message sent to the completion engine
(an entry of `openai_messages`). -/
inductive OMsg where
  | chat (role : String) (content : MsgContent) : OMsg
  | assistantToolCall (id : String) (name : String) (arguments : String) : OMsg
  | toolResult (tool_call_id : String) (content : String) : OMsg

/-- A raw tool descriptor as returned by `session.list_tools()`;
`Json.null` models an absent (`None`) input schema. -/
structure RawTool where
  name : String
  description : Option String
  inputSchema : Json

/-- The `function` part of a normalized catalog entry
(`\x7b"type": "function", "function": \x7b name, description, parameters \x7d\x7d`). -/
structure FunctionSpec where
  name : String
  description : Option String
  parameters : Json

/-- A tool invocation requested by the completion engine.  `args` is the
parsed form of `tool_call.function.arguments` (the client immediately
applies `json.loads` to the argument string at line 120; a malformed
argument string would raise there and is outside the modelled behaviour). -/
structure ToolCall where
  id : String
  name : String
  args : Json

/-- One completion-engine response (`response.choices[0].message`):
optional text content and a possibly-empty tool-call list (Python `None`
and `[]` are both falsy, so the empty list models both). -/
structure CompletionResponse where
  content : Option String
  tool_calls : List ToolCall

/-- The completion engine as an oracle: the message list and the `tools`
catalog sent with the request (`none` when the request carries no `tools`
parameter, as on follow-up calls) determine the response. -/
def Engine : Type := List OMsg → Option (List FunctionSpec) → CompletionResponse

/-- Raw content of a tool invocation result: a plain string, or a list of
content items (each modelled by its `str(item)` rendering, which is all the
client ever uses of an item). -/
inductive ToolContent where
  | text (s : String) : ToolContent
  | items (xs : List String) : ToolContent

/-- Result of `session.call_tool`. -/
structure ToolResult where
  content : ToolContent

/-- The session gateway as an oracle mapping a tool name and arguments to
a result.  Tool execution failures (`ToolExecutionError`) are delivered
in-band, as the MCP protocol does for failing tools: the result's content
is the error text.  Transport-level exceptions that destroy the session are
outside the gateway model. -/
def Gateway : Type := String → Json → ToolResult

/-- Lines 159-160: a list-valued result content is joined into one text
block with newlines, order preserved; a string passes through. -/
def joinContent : ToolContent → String
  | .text s => s
  | .items xs => String.intercalate "\n" xs

/-! Tool Catalog Normalizer (`_connect`, lines 51-68). -/

/-- The canonical empty-object schema substituted for malformed parameter
schemas (lines 64-68). -/
def canonicalSchema : Json :=
  Json.obj [("type", Json.str "object"), ("properties", Json.obj []), ("required", Json.arr [])]

/-- Line 63 test, positively phrased: `parameters` is a dict that contains
a `type` key whose value is the string `"object"`. -/
def schemaOk (parameters : Json) : Bool :=
  match parameters with
  | Json.obj fields =>
    (match lookupLast fields "type" with
     | some (Json.str t) => t = "object"
     | _ => false)
  | _ => false

/-- Lines 51-58: build one catalog entry; a falsy `inputSchema` is replaced
by an empty dict (`tool.inputSchema if tool.inputSchema else \x7b\x7d`). -/
def buildTool (t : RawTool) : FunctionSpec :=
  { name := t.name, description := t.description,
    parameters := if t.inputSchema.truthy then t.inputSchema else Json.obj [] }

/-- Lines 61-68: the schema-validation pass over one built entry. -/
def normalizeTool (t : FunctionSpec) : FunctionSpec :=
  if schemaOk t.parameters then t else { t with parameters := canonicalSchema }

/-- The full catalog construction of `_connect`: the list-build loop of
lines 51-58 followed by the validation loop of lines 61-68. -/
def connectTools (raw : List RawTool) : List FunctionSpec :=
  (raw.map buildTool).map normalizeTool

/-! Result Renderer (lines 145-194) and the per-tool-call message
constructors. -/

/-- Lines 122-131: the tool-use announcement message. -/
def mkToolAnnouncement (toolName : String) (args : Json) : Msg :=
  { role := "assistant",
    content := .text ("I\x27ll use the " ++ toolName ++ " tool to help answer your question."),
    metadata := some { title := some ("Using tool: " ++ toolName),
                       log := some ("Parameters: " ++ Json.dumps args),
                       status := some "pending",
                       id := some ("tool_call_" ++ toolName) } }

/-- Lines 133-141: the parameter-display message. -/
def mkParamsMsg (toolName : String) (args : Json) : Msg :=
  { role := "assistant",
    content := .text ("```json\n" ++ Json.dumpsIndent2 args ++ "\n```"),
    metadata := some { parent_id := some ("tool_call_" ++ toolName),
                       id := some ("params_" ++ toolName),
                       title := some "Tool Parameters" } }

/-- Lines 148-156: the result-announcement message. -/
def mkResultAnnouncement (toolName : String) : Msg :=
  { role := "assistant",
    content := .text "Here are the results from the tool:",
    metadata := some { title := some ("Tool Result for " ++ toolName),
                       status := some "done",
                       id := some ("result_" ++ toolName) } }

/-- Lines 176-184 and 186-194 (two textually identical sites): the
preformatted raw-output message wrapping the result text block. -/
def rawOutputMsg (toolName : String) (text : String) : Msg :=
  { role := "assistant",
    content := .text ("```\n" ++ text ++ "\n```"),
    metadata := some { parent_id := some ("result_" ++ toolName),
                       id := some ("raw_result_" ++ toolName),
                       title := some "Raw Output" } }

/-- Lines 162-194: classify the joined result text and produce the payload
messages appended after the result announcement.  Mirrors the source
exactly: parse failure falls to the `except` branch (raw output message);
a parsed dict containing a `type` key goes to the image message when
`type == "image"` and a `url` key is present, else to the raw output
message; a parsed value that is not a dict with a `type` key appends
nothing at all.  In the image branch the `url` lookup is guarded by key
membership, so the `Json.null` default of `getD` is never used. -/
def renderPayload (toolName : String) (text : String) : List Msg :=
  match Json.loads text with
  | none => [rawOutputMsg toolName text]
  | some (Json.obj fs) =>
    if hasKey fs "type" then
      if (match lookupLast fs "type" with
          | some (Json.str t) => t = "image"
          | _ => false)
         && hasKey fs "url" then
        [ { role := "assistant",
            content := .image ((lookupLast fs "url").getD Json.null)
                              ((lookupLast fs "message").getD (Json.str "Generated image")),
            metadata := some { parent_id := some ("result_" ++ toolName),
                               id := some ("image_" ++ toolName),
                               title := some "Generated Image" } } ]
      else [rawOutputMsg toolName text]
    else []
  | some _ => []

/-- Line 146: set `metadata["status"] = "done"` on one message; a message
without metadata is left unchanged (the line-145 guard `"metadata" in ...`). -/
def setStatusDone (m : Msg) : Msg :=
  match m.metadata with
  | some md => { m with metadata := some { md with status := some "done" } }
  | none => m

/-- Lines 145-146: `result_messages[-2]["metadata"]["status"] = "done"`,
guarded by the list being non-empty.  At this point of the loop the list
always ends with the announcement followed by the parameter display, so
index -2 is the current call's announcement; a one-element list (which
would raise in Python) is unreachable and left unchanged here. -/
def markPrevDone (msgs : List Msg) : List Msg :=
  match msgs.reverse with
  | last :: prev :: rest => (last :: setStatusDone prev :: rest).reverse
  | _ => msgs

/-! Orchestration Loop (`_process_query`, lines 83-229). -/

/-- The loop state: the outbound completion-engine message list, the
accumulated display messages, and the logs of external calls made so far
(each engine call records the messages sent and the catalog sent, `none`
when the request carried no `tools` parameter; each gateway call records
tool name and arguments, in invocation order). -/
structure LoopState where
  openai_messages : List OMsg
  result_messages : List Msg
  engineCalls : List (List OMsg × Option (List FunctionSpec))
  gatewayCalls : List (String × Json)

/-- Lines 223-227: the messages appended from a follow-up engine response,
one plain assistant message when the content is truthy (neither `None` nor
empty), nothing otherwise. -/
def followText : Option String → List Msg
  | some s => if s = "" then [] else [{ role := "assistant", content := .text s }]
  | none => []

/-- Lines 197-214: the two outbound messages appended after one tool
invocation (the assistant tool-call record with re-serialized arguments,
then the `tool`-role result message keyed by the call id). -/
def omsgsAfterCall (omsgs : List OMsg) (gateway : Gateway) (tc : ToolCall) : List OMsg :=
  omsgs ++
    [OMsg.assistantToolCall tc.id tc.name (Json.dumps tc.args),
     OMsg.toolResult tc.id (joinContent (gateway tc.name tc.args).content)]

/-- Lines 118-227, one iteration of the tool-call loop: announce the tool,
display its parameters, invoke the gateway, mark the announcement done,
announce and render the result, append the tool-call round trip to the
outbound messages, make the follow-up engine call (no `tools` parameter),
and append its text as an assistant message when it is truthy
(non-`None`, non-empty). -/
def processToolCall (engine : Engine) (gateway : Gateway) (st : LoopState) (tc : ToolCall) :
    LoopState :=
  let afterAnn := st.result_messages ++ [mkToolAnnouncement tc.name tc.args, mkParamsMsg tc.name tc.args]
  let result := gateway tc.name tc.args
  let afterDone := markPrevDone afterAnn
  let result_content := joinContent result.content
  let afterRender := afterDone ++ [mkResultAnnouncement tc.name] ++ renderPayload tc.name result_content
  let omsgs := omsgsAfterCall st.openai_messages gateway tc
  let next := engine omsgs none
  { openai_messages := omsgs,
    result_messages := afterRender ++ followText next.content,
    engineCalls := st.engineCalls ++ [(omsgs, none)],
    gatewayCalls := st.gatewayCalls ++ [(tc.name, tc.args)] }

/-- The roles kept by the history adaptation of lines 85-92. -/
def historyRoles : List String := ["user", "assistant", "system"]

/-- Lines 84-92: prior history filtered to the recognized roles and mapped
to outbound messages. -/
def toOpenai (history : List Msg) : List OMsg :=
  (history.filter (fun m => historyRoles.contains m.role)).map (fun m => OMsg.chat m.role m.content)

/-- What `_process_query` produces: the new display messages returned to
the caller, plus the logs of external calls made during the turn. -/
structure QueryOutput where
  result_messages : List Msg
  engineCalls : List (List OMsg × Option (List FunctionSpec))
  gatewayCalls : List (String × Json)

/-- Lines 112-115: the direct-answer message content
(`assistant_message.content`, possibly `None`). -/
def contentOfOpt : Option String → MsgContent
  | some s => .text s
  | none => .null

/-- Lines 84-94: the outbound message list at the start of a turn, the
adapted prior history followed by the new user message. -/
def initialMsgs (message : String) (history : List Msg) : List OMsg :=
  toOpenai history ++ [OMsg.chat "user" (.text message)]

/-- `_process_query` (lines 83-229): build the outbound list, make the
first engine call with the tool catalog; with no tool calls in the answer,
emit one assistant message with the answer text; otherwise run the
tool-call loop over the requested invocations in order. -/
def processQuery (engine : Engine) (gateway : Gateway) (tools : List FunctionSpec)
    (message : String) (history : List Msg) : QueryOutput :=
  let openai_messages := initialMsgs message history
  let response := engine openai_messages (some tools)
  if response.tool_calls.isEmpty then
    { result_messages := [{ role := "assistant", content := contentOfOpt response.content }],
      engineCalls := [(openai_messages, some tools)],
      gatewayCalls := [] }
  else
    let final := response.tool_calls.foldl (processToolCall engine gateway)
      { openai_messages := openai_messages,
        result_messages := [],
        engineCalls := [(openai_messages, some tools)],
        gatewayCalls := [] }
    { result_messages := final.result_messages,
      engineCalls := final.engineCalls,
      gatewayCalls := final.gatewayCalls }

/-- The cleared-textbox sentinel `gr.Textbox(value="")`. -/
structure Textbox where
  value : String

/-- What one `process_message` turn produces: the new chat history and the
textbox update handed back to the UI, plus the external-call logs. -/
structure TurnOutput where
  newHistory : List Msg
  textbox : Textbox
  engineCalls : List (List OMsg × Option (List FunctionSpec))
  gatewayCalls : List (String × Json)

/-- The user message dict appended by `process_message`. -/
def userMsg (message : String) : Msg :=
  { role := "user", content := .text message }

/-- Line 77: the no-session assistant message. -/
def connectFirstMsg : Msg :=
  { role := "assistant", content := .text "Please connect to an MCP server first." }

/-- `process_message` (lines 73-81): with no session connected, append the
user message and the connect-first assistant message and clear the textbox,
contacting no external collaborator; otherwise run `_process_query` and
append the user message and its result messages to the prior history. -/
def process_message (connected : Bool) (engine : Engine) (gateway : Gateway)
    (tools : List FunctionSpec) (message : String) (history : List Msg) : TurnOutput :=
  if !connected then
    { newHistory := history ++ [userMsg message, connectFirstMsg],
      textbox := { value := "" },
      engineCalls := [], gatewayCalls := [] }
  else
    let q := processQuery engine gateway tools message history
    { newHistory := history ++ [userMsg message] ++ q.result_messages,
      textbox := { value := "" },
      engineCalls := q.engineCalls, gatewayCalls := q.gatewayCalls }

/-! Structural lemmas about the tool-call loop.  `toolCallBlock` names the
display-message block one loop iteration appends, and `runBlocks`,
`followupCalls` and `omsgsFold` unroll the fold over the requested
invocations; the lemmas identify the fold with these unrollings. -/

/-- The display messages appended by one loop iteration: the (now done)
announcement, the parameter display, the result announcement, the rendered
payload, and the follow-up text when truthy.  `omsgsAfter` is the outbound
list sent to the follow-up engine call. -/
def toolCallBlock (engine : Engine) (gateway : Gateway) (omsgsAfter : List OMsg) (tc : ToolCall) :
    List Msg :=
  [setStatusDone (mkToolAnnouncement tc.name tc.args), mkParamsMsg tc.name tc.args,
   mkResultAnnouncement tc.name]
  ++ renderPayload tc.name (joinContent (gateway tc.name tc.args).content)
  ++ followText (engine omsgsAfter none).content

/-- The display-message blocks of the whole loop, given the outbound list
at loop entry. -/
def runBlocks (engine : Engine) (gateway : Gateway) : List OMsg → List ToolCall → List (List Msg)
  | _, [] => []
  | omsgs, tc :: rest =>
    toolCallBlock engine gateway (omsgsAfterCall omsgs gateway tc) tc ::
      runBlocks engine gateway (omsgsAfterCall omsgs gateway tc) rest

/-- The follow-up engine calls of the whole loop, in order: one per
invocation, each with the outbound list updated through that invocation
and no tool catalog. -/
def followupCalls (gateway : Gateway) :
    List OMsg → List ToolCall → List (List OMsg × Option (List FunctionSpec))
  | _, [] => []
  | omsgs, tc :: rest =>
    (omsgsAfterCall omsgs gateway tc, none) ::
      followupCalls gateway (omsgsAfterCall omsgs gateway tc) rest

/-- The outbound message list after the whole loop. -/
def omsgsFold (gateway : Gateway) : List OMsg → List ToolCall → List OMsg
  | omsgs, [] => omsgs
  | omsgs, tc :: rest => omsgsFold gateway (omsgsAfterCall omsgs gateway tc) rest

theorem markPrevDone_append (xs : List Msg) (a b : Msg) :
    markPrevDone (xs ++ [a, b]) = xs ++ [setStatusDone a, b] := by
  simp [markPrevDone]

theorem processToolCall_spec (engine : Engine) (gateway : Gateway) (st : LoopState)
    (tc : ToolCall) :
    processToolCall engine gateway st tc =
      { openai_messages := omsgsAfterCall st.openai_messages gateway tc,
        result_messages := st.result_messages ++
          toolCallBlock engine gateway (omsgsAfterCall st.openai_messages gateway tc) tc,
        engineCalls := st.engineCalls ++ [(omsgsAfterCall st.openai_messages gateway tc, none)],
        gatewayCalls := st.gatewayCalls ++ [(tc.name, tc.args)] } := by
  simp [processToolCall, toolCallBlock, markPrevDone_append]

theorem foldl_processToolCall_spec (engine : Engine) (gateway : Gateway) (tcs : List ToolCall)
    (st : LoopState) :
    tcs.foldl (processToolCall engine gateway) st =
      { openai_messages := omsgsFold gateway st.openai_messages tcs,
        result_messages := st.result_messages ++
          (runBlocks engine gateway st.openai_messages tcs).flatten,
        engineCalls := st.engineCalls ++ followupCalls gateway st.openai_messages tcs,
        gatewayCalls := st.gatewayCalls ++ tcs.map (fun tc => (tc.name, tc.args)) } := by
  induction tcs generalizing st with
  | nil => simp [runBlocks, followupCalls, omsgsFold]
  | cons tc rest ih =>
    rw [List.foldl_cons, processToolCall_spec, ih]
    simp [runBlocks, followupCalls, omsgsFold]

theorem processQuery_tool_branch (engine : Engine) (gateway : Gateway)
    (tools : List FunctionSpec) (message : String) (history : List Msg)
    (h : (engine (initialMsgs message history) (some tools)).tool_calls ≠ []) :
    processQuery engine gateway tools message history =
      { result_messages :=
          (runBlocks engine gateway (initialMsgs message history)
            (engine (initialMsgs message history) (some tools)).tool_calls).flatten,
        engineCalls := (initialMsgs message history, some tools) ::
          followupCalls gateway (initialMsgs message history)
            (engine (initialMsgs message history) (some tools)).tool_calls,
        gatewayCalls := (engine (initialMsgs message history) (some tools)).tool_calls.map
          (fun tc => (tc.name, tc.args)) } := by
  have hne : ((engine (initialMsgs message history) (some tools)).tool_calls.isEmpty) = false := by
    simpa [List.isEmpty_iff] using h
  simp only [processQuery, hne, Bool.false_eq_true, if_false]
  rw [foldl_processToolCall_spec]
  simp

/-! Facts about the tool-catalog normalizer. -/

theorem schemaOk_canonical : schemaOk canonicalSchema = true := rfl

theorem schemaOk_truthy (j : Json) (h : schemaOk j = true) : j.truthy = true := by
  cases j with
  | obj fields =>
    cases fields with
    | nil => simp [schemaOk, lookupLast] at h
    | cons f rest => simp [Json.truthy]
  | null => simp [schemaOk] at h
  | bool b => simp [schemaOk] at h
  | num s => simp [schemaOk] at h
  | str s => simp [schemaOk] at h
  | arr items => simp [schemaOk] at h

theorem normalizeTool_idem (x : FunctionSpec) :
    normalizeTool (normalizeTool x) = normalizeTool x := by
  by_cases h : schemaOk x.parameters
  · simp [normalizeTool, h]
  · simp [normalizeTool, h, schemaOk_canonical]

theorem map_normalizeTool_idem (l : List FunctionSpec) :
    (l.map normalizeTool).map normalizeTool = l.map normalizeTool := by
  induction l with
  | nil => rfl
  | cons x xs ih => simp only [List.map_cons, normalizeTool_idem, ih]

/-- C6: a raw descriptor whose parameter schema is absent, not an object,
or lacks `type == "object"` gets exactly the canonical empty-object schema
and keeps its name and description; a descriptor whose schema already
satisfies the condition is left unchanged; re-normalizing a normalized
catalog is a no-op. -/
theorem c6_normalizer_policy (t : RawTool) :
    (schemaOk t.inputSchema = false →
      normalizeTool (buildTool t) =
        { name := t.name, description := t.description, parameters := canonicalSchema }) ∧
    (schemaOk t.inputSchema = true →
      normalizeTool (buildTool t) =
        { name := t.name, description := t.description, parameters := t.inputSchema }) ∧
    (∀ raw : List RawTool, (connectTools raw).map normalizeTool = connectTools raw) := by
  refine ⟨?_, ?_, ?_⟩
  · intro h
    by_cases ht : t.inputSchema.truthy
    · simp [buildTool, normalizeTool, ht, h]
    · simp only [Bool.not_eq_true] at ht
      simp [buildTool, normalizeTool, ht, schemaOk, lookupLast]
  · intro h
    have ht := schemaOk_truthy _ h
    simp [buildTool, normalizeTool, ht, h]
  · intro raw
    simpa [connectTools] using map_normalizeTool_idem (raw.map buildTool)

/-- Witness for C6 at two concrete descriptors: one with an absent schema
(normalized to the canonical schema, other fields kept), one already
well-formed (left unchanged). -/
theorem c6_normalizer_policy_witness :
    (schemaOk Json.null = false ∧
      normalizeTool (buildTool (RawTool.mk "a" none Json.null)) =
        FunctionSpec.mk "a" none canonicalSchema) ∧
    (schemaOk (Json.obj [("type", Json.str "object")]) = true ∧
      normalizeTool (buildTool (RawTool.mk "b" (some "d") (Json.obj [("type", Json.str "object")]))) =
        FunctionSpec.mk "b" (some "d") (Json.obj [("type", Json.str "object")])) :=
  ⟨⟨rfl, (c6_normalizer_policy _).1 rfl⟩, ⟨rfl, (c6_normalizer_policy _).2.1 rfl⟩⟩

/-- C8: with no session connected, the turn appends the user message and
the single connect-first assistant message, clears the textbox, and makes
no engine and no gateway call at all. -/
theorem c8_no_session (engine : Engine) (gateway : Gateway) (tools : List FunctionSpec)
    (message : String) (history : List Msg) :
    process_message false engine gateway tools message history =
      { newHistory := history ++
          [userMsg message,
           { role := "assistant", content := .text "Please connect to an MCP server first." }],
        textbox := { value := "" },
        engineCalls := [], gatewayCalls := [] } := rfl

/-- C10: the returned history is the prior history unchanged, then exactly
one user message carrying the submitted text, then the turn's new
messages; the second returned value always clears the input textbox. -/
theorem c10_frame (connected : Bool) (engine : Engine) (gateway : Gateway)
    (tools : List FunctionSpec) (message : String) (history : List Msg) :
    (∃ newMsgs : List Msg,
      (process_message connected engine gateway tools message history).newHistory =
        history ++ [{ role := "user", content := .text message }] ++ newMsgs) ∧
    (process_message connected engine gateway tools message history).textbox =
      { value := "" } := by
  cases connected
  · exact ⟨⟨[connectFirstMsg], by simp [process_message, userMsg]⟩, rfl⟩
  · exact ⟨⟨(processQuery engine gateway tools message history).result_messages,
      by simp [process_message, userMsg]⟩, rfl⟩

/-! Concrete oracles used by witnesses and counterexamples. -/

/-- An engine answering directly with empty text and no tool calls. -/
def emptyAnswerEngine : Engine := fun _ _ => { content := some "", tool_calls := [] }

/-- A gateway returning a fixed plain-text result. -/
def plainGateway : Gateway := fun _ _ => { content := .text "42 items" }

/-- C4 counterexample: the engine returns zero tool calls and empty text,
yet the emitted sequence contains one assistant message (with that empty
content) — not zero as the claim states. -/
theorem c4_counterexample :
    (processQuery emptyAnswerEngine plainGateway [] "hi" []).result_messages =
      [{ role := "assistant", content := MsgContent.text "" }] := rfl

/-- C4 as amended: with zero tool calls the emitted sequence is exactly one
assistant message whose content is the engine's text — also when that text
is empty or absent (the message is still emitted, with the empty content). -/
theorem c4_direct_answer (engine : Engine) (gateway : Gateway) (tools : List FunctionSpec)
    (message : String) (history : List Msg)
    (h : (engine (initialMsgs message history) (some tools)).tool_calls = []) :
    (processQuery engine gateway tools message history).result_messages =
      [{ role := "assistant",
         content := contentOfOpt (engine (initialMsgs message history) (some tools)).content }] := by
  simp [processQuery, h]

/-- Witness for C4 (amended) at the concrete empty-text engine. -/
theorem c4_direct_answer_witness :
    (emptyAnswerEngine (initialMsgs "hi" []) (some [])).tool_calls = [] ∧
    (processQuery emptyAnswerEngine plainGateway [] "hi" []).result_messages =
      [{ role := "assistant",
         content := contentOfOpt (emptyAnswerEngine (initialMsgs "hi" []) (some [])).content }] :=
  ⟨rfl, c4_direct_answer emptyAnswerEngine plainGateway [] "hi" [] rfl⟩

/-- The spec's image round-trip input. -/
def imageResultText : String :=
  "\x7b\"type\":\"image\",\"url\":\"http://x/y.png\",\"message\":\"m\"\x7d"

/-- C9: a tool result whose content is the image JSON text renders to
exactly one image message with the url as path and the message as its
caption (`alt_text`). -/
theorem c9_image_roundtrip (toolName : String) (r : ToolResult)
    (h : r.content = .text imageResultText) :
    renderPayload toolName (joinContent r.content) =
      [{ role := "assistant",
         content := .image (Json.str "http://x/y.png") (Json.str "m"),
         metadata := some { parent_id := some ("result_" ++ toolName),
                            id := some ("image_" ++ toolName),
                            title := some "Generated Image" } }] := by
  rw [h]
  rfl

/-- Witness for C9 at a concrete tool name and result. -/
theorem c9_image_roundtrip_witness :
    (ToolResult.mk (.text imageResultText)).content = .text imageResultText ∧
    renderPayload "chart" (joinContent (ToolResult.mk (.text imageResultText)).content) =
      [{ role := "assistant",
         content := .image (Json.str "http://x/y.png") (Json.str "m"),
         metadata := some { parent_id := some "result_chart",
                            id := some "image_chart",
                            title := some "Generated Image" } }] :=
  ⟨rfl, c9_image_roundtrip "chart" (ToolResult.mk (.text imageResultText)) rfl⟩

/-- C3 counterexample: `"[1, 2]"` parses as JSON but is not an object with
a `type` field; the claim demands a preformatted-text message, but the
renderer emits no payload message at all. -/
theorem c3_counterexample : renderPayload "list_items" "[1, 2]" = [] := rfl

/-- C3 as amended: on parse failure, or on a parsed object that has a
`type` field but fails the image conditions, the renderer emits the
preformatted message wrapping the raw text block; on a parsed value that
is not an object with a `type` field it emits no payload message. -/
theorem c3_renderer_fallthrough (toolName text : String) :
    (Json.loads text = none → renderPayload toolName text = [rawOutputMsg toolName text]) ∧
    (∀ fs, Json.loads text = some (Json.obj fs) → hasKey fs "type" = true →
      ((match lookupLast fs "type" with
        | some (Json.str t) => t = "image"
        | _ => false) && hasKey fs "url") = false →
      renderPayload toolName text = [rawOutputMsg toolName text]) ∧
    (∀ j, Json.loads text = some j →
      (match j with | Json.obj fs => hasKey fs "type" | _ => false) = false →
      renderPayload toolName text = []) := by
  refine ⟨?_, ?_, ?_⟩
  · intro h
    simp [renderPayload, h]
  · intro fs h ht hcond
    simp [renderPayload, h, ht, hcond]
  · intro j h hj
    cases j <;> simp_all [renderPayload]

/-- Witness for C3 (amended): the non-JSON text `"plain output"` falls to
the preformatted branch. -/
theorem c3_renderer_fallthrough_witness :
    Json.loads "plain output" = none ∧
    renderPayload "t" "plain output" = [rawOutputMsg "t" "plain output"] :=
  ⟨rfl, (c3_renderer_fallthrough "t" "plain output").1 rfl⟩

/-! Facts about the follow-up engine calls of the tool-call loop. -/

theorem followupCalls_length (gateway : Gateway) (omsgs : List OMsg) (tcs : List ToolCall) :
    (followupCalls gateway omsgs tcs).length = tcs.length := by
  induction tcs generalizing omsgs with
  | nil => rfl
  | cons tc rest ih => simp [followupCalls, ih]

theorem followupCalls_no_catalog (gateway : Gateway) (omsgs : List OMsg) (tcs : List ToolCall) :
    ∀ c ∈ followupCalls gateway omsgs tcs, c.2 = none := by
  induction tcs generalizing omsgs with
  | nil => intro c hc; simp [followupCalls] at hc
  | cons tc rest ih =>
    intro c hc
    rcases List.mem_cons.mp hc with h | h
    · rw [h]
    · exact ih _ c h

theorem runBlocks_length (engine : Engine) (gateway : Gateway) (omsgs : List OMsg)
    (tcs : List ToolCall) :
    (runBlocks engine gateway omsgs tcs).length = tcs.length := by
  induction tcs generalizing omsgs with
  | nil => rfl
  | cons tc rest ih => simp [runBlocks, ih]

/-- An engine requesting two tool invocations on the catalog-bearing first
call and answering a fixed text on the catalog-less follow-up calls. -/
def twoCallEngine : Engine := fun _ tools =>
  match tools with
  | some _ =>
    { content := none,
      tool_calls := [ToolCall.mk "i1" "alpha" (Json.obj []), ToolCall.mk "i2" "beta" (Json.obj [])] }
  | none => { content := some "f", tool_calls := [] }

/-- A gateway returning a fixed plain result. -/
def okGateway : Gateway := fun _ _ => { content := .text "ok" }

/-- C2 counterexample: with two requested tool invocations the engine is
queried three times in the turn (first call plus one follow-up after each
invocation), not the two the claim implies, and two — not one — final
assistant messages carry the follow-up text. -/
theorem c2_counterexample :
    (processQuery twoCallEngine okGateway [] "m" []).engineCalls.length = 3 ∧
    ((processQuery twoCallEngine okGateway [] "m" []).result_messages.filter
      (fun m => match m.content with | .text s => s = "f" | _ => false)).length = 2 := by
  exact ⟨rfl, rfl⟩

/-- C2 as amended: the Completion Engine is re-queried exactly once after
each of the N tool invocations (N follow-up calls, so N+1 engine calls in
the turn), each follow-up carrying the outbound message list updated
through that invocation and no tool catalog; each follow-up returning
truthy text contributes one assistant message with that text inside that
invocation's block (the `followText` part of its `toolCallBlock`). -/
theorem c2_followup_per_call (engine : Engine) (gateway : Gateway) (tools : List FunctionSpec)
    (message : String) (history : List Msg)
    (h : (engine (initialMsgs message history) (some tools)).tool_calls ≠ []) :
    (processQuery engine gateway tools message history).engineCalls =
      (initialMsgs message history, some tools) ::
        followupCalls gateway (initialMsgs message history)
          (engine (initialMsgs message history) (some tools)).tool_calls ∧
    (followupCalls gateway (initialMsgs message history)
      (engine (initialMsgs message history) (some tools)).tool_calls).length =
      (engine (initialMsgs message history) (some tools)).tool_calls.length ∧
    (∀ c ∈ followupCalls gateway (initialMsgs message history)
        (engine (initialMsgs message history) (some tools)).tool_calls, c.2 = none) ∧
    (processQuery engine gateway tools message history).result_messages =
      (runBlocks engine gateway (initialMsgs message history)
        (engine (initialMsgs message history) (some tools)).tool_calls).flatten := by
  rw [processQuery_tool_branch engine gateway tools message history h]
  exact ⟨rfl, followupCalls_length _ _ _, followupCalls_no_catalog _ _ _, rfl⟩

/-- Witness for C2 (amended) at the concrete two-invocation engine. -/
theorem c2_followup_per_call_witness :
    (twoCallEngine (initialMsgs "m" []) (some [])).tool_calls ≠ [] ∧
    (processQuery twoCallEngine okGateway [] "m" []).engineCalls =
      (initialMsgs "m" [], some []) ::
        followupCalls okGateway (initialMsgs "m" [])
          (twoCallEngine (initialMsgs "m" []) (some [])).tool_calls :=
  ⟨fun hx => List.noConfusion hx,
   (c2_followup_per_call twoCallEngine okGateway [] "m" [] (fun hx => List.noConfusion hx)).1⟩

/-- An engine requesting one `list_items` invocation on the first call and
answering a final text on the follow-up. -/
def oneCallEngine : Engine := fun _ tools =>
  match tools with
  | some _ =>
    { content := none,
      tool_calls := [ToolCall.mk "c1" "list_items" (Json.obj [("filter", Json.str "all")])] }
  | none => { content := some "final answer", tool_calls := [] }

/-- C5: with N requested invocations the gateway is invoked sequentially in
request order (the gateway-call log equals the request list), and the
emitted sequence is the concatenation of one block per request, each block
being the announcement (built with `status = "pending"` and
`id = tool_call_<toolName>`, marked done in place) strictly before the
parameter display (whose `parent_id` is the announcement id) strictly
before the result messages. -/
theorem c5_request_order (engine : Engine) (gateway : Gateway) (tools : List FunctionSpec)
    (message : String) (history : List Msg)
    (h : (engine (initialMsgs message history) (some tools)).tool_calls ≠ []) :
    (processQuery engine gateway tools message history).gatewayCalls =
      (engine (initialMsgs message history) (some tools)).tool_calls.map
        (fun tc => (tc.name, tc.args)) ∧
    (processQuery engine gateway tools message history).result_messages =
      (runBlocks engine gateway (initialMsgs message history)
        (engine (initialMsgs message history) (some tools)).tool_calls).flatten ∧
    (runBlocks engine gateway (initialMsgs message history)
        (engine (initialMsgs message history) (some tools)).tool_calls).length =
      (engine (initialMsgs message history) (some tools)).tool_calls.length ∧
    (∀ omsgsA : List OMsg, ∀ tc : ToolCall, ∃ results : List Msg,
      toolCallBlock engine gateway omsgsA tc =
        setStatusDone (mkToolAnnouncement tc.name tc.args) ::
          mkParamsMsg tc.name tc.args :: results) ∧
    (∀ tc : ToolCall,
      (mkToolAnnouncement tc.name tc.args).metadata =
        some (Metadata.mk (some ("Using tool: " ++ tc.name))
          (some ("Parameters: " ++ Json.dumps tc.args)) (some "pending")
          (some ("tool_call_" ++ tc.name)) none) ∧
      (mkParamsMsg tc.name tc.args).metadata =
        some (Metadata.mk (some "Tool Parameters") none none
          (some ("params_" ++ tc.name)) (some ("tool_call_" ++ tc.name)))) := by
  rw [processQuery_tool_branch engine gateway tools message history h]
  refine ⟨rfl, rfl, runBlocks_length _ _ _ _, ?_, ?_⟩
  · intro omsgsA tc
    exact ⟨mkResultAnnouncement tc.name ::
      (renderPayload tc.name (joinContent (gateway tc.name tc.args).content) ++
       followText (engine omsgsA none).content), by simp [toolCallBlock]⟩
  · intro tc
    exact ⟨rfl, rfl⟩

/-- Witness for C5 at the concrete one-invocation engine. -/
theorem c5_request_order_witness :
    (oneCallEngine (initialMsgs "list them" []) (some [])).tool_calls ≠ [] ∧
    (processQuery oneCallEngine plainGateway [] "list them" []).gatewayCalls =
      (oneCallEngine (initialMsgs "list them" []) (some [])).tool_calls.map
        (fun tc => (tc.name, tc.args)) :=
  ⟨fun hx => List.noConfusion hx,
   (c5_request_order oneCallEngine plainGateway [] "list them" []
     (fun hx => List.noConfusion hx)).1⟩

/-- An engine requesting one `fetch` invocation on the first call and
answering a final text on the follow-up. -/
def fetchEngine : Engine := fun _ tools =>
  match tools with
  | some _ => { content := none, tool_calls := [ToolCall.mk "e1" "fetch" (Json.obj [])] }
  | none => { content := some "done", tool_calls := [] }

/-- A gateway whose invocation fails: per the MCP protocol a failing tool
reports `ToolExecutionError` in-band, the result content being the error
text. -/
def timeoutGateway : Gateway := fun _ _ => { content := .text "timeout" }

/-- C1: a turn whose (single) tool invocation fails with
`ToolExecutionError` — delivered by the gateway as a result whose content
is the error text — does not abort: the announcement, parameter display
and result announcement are emitted, the renderer runs on the error text,
the error text is sent back to the engine as the `tool`-role result
content, the follow-up engine call is still made (with no catalog), and
the turn returns its complete, well-formed message sequence. -/
theorem c1_tool_error_recovery (engine : Engine) (gateway : Gateway) (tools : List FunctionSpec)
    (message : String) (history : List Msg) (tc : ToolCall) (errText : String)
    (h : (engine (initialMsgs message history) (some tools)).tool_calls = [tc])
    (herr : gateway tc.name tc.args = { content := .text errText }) :
    (processQuery engine gateway tools message history).result_messages =
      [setStatusDone (mkToolAnnouncement tc.name tc.args), mkParamsMsg tc.name tc.args,
       mkResultAnnouncement tc.name]
      ++ renderPayload tc.name errText
      ++ followText (engine (initialMsgs message history ++
           [OMsg.assistantToolCall tc.id tc.name (Json.dumps tc.args),
            OMsg.toolResult tc.id errText]) none).content ∧
    (processQuery engine gateway tools message history).engineCalls =
      [(initialMsgs message history, some tools),
       (initialMsgs message history ++
          [OMsg.assistantToolCall tc.id tc.name (Json.dumps tc.args),
           OMsg.toolResult tc.id errText], none)] := by
  rw [processQuery_tool_branch engine gateway tools message history (by rw [h]; exact List.cons_ne_nil _ _)]
  rw [h]
  constructor
  · simp [runBlocks, toolCallBlock, omsgsAfterCall, herr, joinContent]
  · simp [followupCalls, omsgsAfterCall, herr, joinContent]

/-- Witness for C1: the invocation raises `ToolExecutionError("timeout")`;
the rendered result message wraps the text `timeout`, and the follow-up
engine call carries it as the tool-role result content. -/
theorem c1_tool_error_recovery_witness :
    (fetchEngine (initialMsgs "go" []) (some [])).tool_calls =
      [ToolCall.mk "e1" "fetch" (Json.obj [])] ∧
    timeoutGateway "fetch" (Json.obj []) = { content := .text "timeout" } ∧
    ((processQuery fetchEngine timeoutGateway [] "go" []).result_messages =
      [setStatusDone (mkToolAnnouncement "fetch" (Json.obj [])), mkParamsMsg "fetch" (Json.obj []),
       mkResultAnnouncement "fetch"]
      ++ renderPayload "fetch" "timeout"
      ++ followText (fetchEngine (initialMsgs "go" [] ++
           [OMsg.assistantToolCall "e1" "fetch" (Json.dumps (Json.obj [])),
            OMsg.toolResult "e1" "timeout"]) none).content ∧
    (processQuery fetchEngine timeoutGateway [] "go" []).engineCalls =
      [(initialMsgs "go" [], some []),
       (initialMsgs "go" [] ++
          [OMsg.assistantToolCall "e1" "fetch" (Json.dumps (Json.obj [])),
           OMsg.toolResult "e1" "timeout"], none)]) ∧
    renderPayload "fetch" "timeout" = [rawOutputMsg "fetch" "timeout"] :=
  ⟨rfl, rfl,
   c1_tool_error_recovery fetchEngine timeoutGateway [] "go" []
     (ToolCall.mk "e1" "fetch" (Json.obj [])) "timeout" rfl rfl,
   rfl⟩

/-! The parent-id linkage invariant (C7). -/

/-- The ids a message contributes to the turn's id pool. -/
def msgIds (m : Msg) : List String :=
  match m.metadata with
  | some md => (match md.id with | some i => [i] | none => [])
  | none => []

/-- The parent reference of a message, when it has one. -/
def msgParent (m : Msg) : Option String :=
  match m.metadata with
  | some md => md.parent_id
  | none => none

/-- Every message's `parent_id`, if any, names an id in `seen` or in the
metadata of a message strictly earlier in the list. -/
def parentsLinkedFrom : List String → List Msg → Prop
  | _, [] => True
  | seen, m :: rest =>
    (∀ p, msgParent m = some p → p ∈ seen) ∧ parentsLinkedFrom (seen ++ msgIds m) rest

/-- Every message's `parent_id` names an id emitted strictly earlier in the
same sequence. -/
def parentsLinked (msgs : List Msg) : Prop := parentsLinkedFrom [] msgs

theorem parentsLinkedFrom_of_all (seen : List String) (msgs : List Msg)
    (h : ∀ m ∈ msgs, ∀ p, msgParent m = some p → p ∈ seen) :
    parentsLinkedFrom seen msgs := by
  induction msgs generalizing seen with
  | nil => trivial
  | cons m rest ih =>
    refine ⟨fun p hp => h m (List.mem_cons_self _ _) p hp, ih _ ?_⟩
    intro m2 hm2 p hp
    exact List.mem_append.mpr (Or.inl (h m2 (List.mem_cons_of_mem _ hm2) p hp))

theorem parentsLinkedFrom_append (seen : List String) (xs ys : List Msg)
    (hx : parentsLinkedFrom seen xs)
    (hy : parentsLinkedFrom (seen ++ (xs.map msgIds).flatten) ys) :
    parentsLinkedFrom seen (xs ++ ys) := by
  induction xs generalizing seen with
  | nil => simpa using hy
  | cons m rest ih =>
    obtain ⟨hp, hrest⟩ := hx
    refine ⟨hp, ih _ hrest ?_⟩
    simpa [List.append_assoc] using hy

theorem renderPayload_parent (toolName text : String) :
    ∀ m ∈ renderPayload toolName text, msgParent m = some ("result_" ++ toolName) := by
  intro m hm
  unfold renderPayload at hm
  split at hm
  · rw [List.mem_singleton] at hm
    subst hm; rfl
  · split at hm
    · split at hm
      · rw [List.mem_singleton] at hm
        subst hm; rfl
      · rw [List.mem_singleton] at hm
        subst hm; rfl
    · simp at hm
  · simp at hm

theorem followText_parent (c : Option String) :
    ∀ m ∈ followText c, msgParent m = none := by
  intro m hm
  cases c with
  | none => simp [followText] at hm
  | some s =>
    by_cases hs : s = ""
    · simp [followText, hs] at hm
    · simp only [followText, hs, if_false, List.mem_singleton] at hm
      subst hm; rfl

theorem toolCallBlock_linked (engine : Engine) (gateway : Gateway) (omsgsA : List OMsg)
    (tc : ToolCall) (seen : List String) :
    parentsLinkedFrom seen (toolCallBlock engine gateway omsgsA tc) := by
  have hshape : toolCallBlock engine gateway omsgsA tc =
      setStatusDone (mkToolAnnouncement tc.name tc.args) :: mkParamsMsg tc.name tc.args ::
        mkResultAnnouncement tc.name ::
        (renderPayload tc.name (joinContent (gateway tc.name tc.args).content) ++
         followText (engine omsgsA none).content) := by
    simp [toolCallBlock]
  rw [hshape]
  refine ⟨fun p hp => Option.noConfusion hp, ?_, fun p hp => Option.noConfusion hp, ?_⟩
  · intro p hp
    have hp2 : p = "tool_call_" ++ tc.name := by
      simpa [msgParent, mkParamsMsg] using hp.symm
    subst hp2
    exact List.mem_append.mpr (Or.inr (by simp [msgIds, setStatusDone, mkToolAnnouncement]))
  · apply parentsLinkedFrom_of_all
    intro m hm p hp
    rcases List.mem_append.mp hm with hmem | hmem
    · have := renderPayload_parent tc.name _ m hmem
      rw [this] at hp
      have hp2 : p = "result_" ++ tc.name := (Option.some_inj.mp hp).symm
      subst hp2
      exact List.mem_append.mpr (Or.inr (by simp [msgIds, mkResultAnnouncement]))
    · have := followText_parent _ m hmem
      rw [this] at hp
      exact Option.noConfusion hp

theorem runBlocks_linked (engine : Engine) (gateway : Gateway) (tcs : List ToolCall)
    (omsgs : List OMsg) (seen : List String) :
    parentsLinkedFrom seen (runBlocks engine gateway omsgs tcs).flatten := by
  induction tcs generalizing omsgs seen with
  | nil => trivial
  | cons tc rest ih =>
    rw [runBlocks, List.flatten_cons]
    exact parentsLinkedFrom_append _ _ _ (toolCallBlock_linked _ _ _ _ _) (ih _ _)

/-- C7: in every turn's emitted message sequence, every message carrying a
`parent_id` references an id that appears in the metadata of a message
emitted strictly earlier in that same sequence. -/
theorem c7_parent_ids_resolve (engine : Engine) (gateway : Gateway) (tools : List FunctionSpec)
    (message : String) (history : List Msg) :
    parentsLinked (processQuery engine gateway tools message history).result_messages := by
  by_cases h : (engine (initialMsgs message history) (some tools)).tool_calls = []
  · have hempty : ((engine (initialMsgs message history) (some tools)).tool_calls.isEmpty) = true := by
      simp [h]
    unfold parentsLinked processQuery
    rw [if_pos hempty]
    exact ⟨fun p hp => Option.noConfusion hp, trivial⟩
  · rw [processQuery_tool_branch engine gateway tools message history h]
    exact runBlocks_linked _ _ _ _ _
